import Mathlib

/-!
Shallow embedding of the dataset-catalog component of the
osc-geo-h3grid-srv repository, centered on
`src/geoserver/metadata.py` (class `MetadataDB`): dataset registration
(`add_metadata_entry`), listing (`show_meta`), existence check
(`ds_meta_exists`) and lookup (`get_ds_metadata`).

The duckdb storage layer is modelled as a `Storage` state: one metadata
table (guarded by a `tableExists` flag, created on first registration),
a list of rows keyed by `dataset_name` (the PRIMARY KEY constraint is
modelled by the insert failing with a constraint violation when a row
with the same `dataset_name` is already present), and two counters
`opens`/`closes` recording how many duckdb connections were acquired and
released, so that connection-lifetime properties are expressible.

Python exceptions are modelled by the `MetaError` inductive, with one
constructor per exception class raised in `metadata.py`; a function that
can raise returns an `Except MetaError` value. Python `Dict[str, str]`
values are modelled as ordered association lists with distinct keys,
matching insertion-ordered Python dicts.
-/

namespace GeoMeta

/-- Model of Python `str.isalnum` restricted to ASCII (the repository
only ever handles ASCII column names; Python's `isalnum` is additionally
true on some non-ASCII code points, which no claim here exercises). -/
def pyIsAlnum (c : Char) : Bool := c.isAlphanum

/-- Constant `METADATA_DB_NAME` from metadata.py. -/
def METADATA_DB_NAME : String := "dataset_metadata"

/-- Constant `METADATA_TABLE_NAME` from metadata.py. -/
def METADATA_TABLE_NAME : String := "dataset_metadata"

/-- Constant `VALID_META_INTERVALS` from metadata.py. -/
def VALID_META_INTERVALS : List String := ["one_time", "yearly", "monthly", "daily"]

/-- Constant `VALID_DATASET_TYPES` from metadata.py. -/
def VALID_DATASET_TYPES : List String := ["h3", "point"]

/-- Embedding of `MetadataDB._get_non_alphanum_chars`: the Python code
removes from `s` every character of `s` that is alphanumeric (via
`str.translate`), leaving exactly the non-alphanumeric characters of `s`
in order, with multiplicity. -/
def get_non_alphanum_chars (s : String) : String :=
  String.mk (s.data.filter (fun c => !(pyIsAlnum c)))

/-- Modelled from the spec: the alias table of TypeCanon
(`duckdbutils.is_general_col_type` / `convert_to_cannonical_type` live
in `geoserver/utilities/duckdbutils.py`, which is not under src/). The
spec says TypeCanon accepts a whitelist of general type categories
(integer, float, string, boolean, timestamp variants) and maps aliases
to one canonical spelling understood by the storage adapter. Canonical
spellings are included as aliases of themselves. -/
def general_type_aliases : List (String × String) :=
  [("integer", "INTEGER"), ("int", "INTEGER"), ("INTEGER", "INTEGER"),
   ("float", "FLOAT"), ("real", "FLOAT"), ("FLOAT", "FLOAT"),
   ("double", "DOUBLE"), ("DOUBLE", "DOUBLE"),
   ("string", "VARCHAR"), ("varchar", "VARCHAR"), ("text", "VARCHAR"),
   ("VARCHAR", "VARCHAR"),
   ("boolean", "BOOLEAN"), ("bool", "BOOLEAN"), ("BOOLEAN", "BOOLEAN"),
   ("timestamp", "TIMESTAMP"), ("datetime", "TIMESTAMP"),
   ("TIMESTAMP", "TIMESTAMP")]

/-- Look up a type name in the alias table. -/
def lookupAlias (t : String) : Option String :=
  (general_type_aliases.find? (fun p => p.1 == t)).map Prod.snd

/-- Modelled from the spec: `duckdbutils.is_general_col_type` (not under
src/). Returns `(ok, error-message)`: `ok` is true when the name is a
recognized general type or alias, and the message explains the failure
otherwise. -/
def is_general_col_type (t : String) : Bool × String :=
  match lookupAlias t with
  | some _ => (true, "")
  | none => (false, s!"type {t} is not a recognized general column type")

/-- Modelled from the spec: `duckdbutils.convert_to_cannonical_type`
(not under src/): maps a recognized type alias to its canonical
spelling. -/
def convert_to_cannonical_type (t : String) : String :=
  match lookupAlias t with
  | some c => c
  | none => t

/-- One error constructor per exception class raised in `metadata.py`:
`genericError` is a bare Python `Exception` (carrying its message);
`invalidCharacter` is `InvalidCharacterException`, carrying the
offending column name and its non-alphanumeric characters, which
determine the exception message; `invalidColumnType` is
`InvalidColumnTypeException`, carrying the collected per-column error
messages; `invalidArgument` is `InvalidArgumentException`;
`alreadyExists` is `BgsAlreadyExistsException`; `noneSubscript` is the
`TypeError` the Python runtime raises when `fetchone()` returned `None`
and the code subscripts it (`result_raw[0]`). -/
inductive MetaError where
  | genericError (msg : String)
  | invalidCharacter (colName : String) (badChars : String)
  | invalidColumnType (colErrors : List String)
  | invalidArgument (msg : String)
  | alreadyExists (msg : String)
  | noneSubscript
  deriving DecidableEq, Repr

/-- True exactly on the `InvalidArgumentException` error kind. -/
def MetaError.isInvalidArgument : MetaError → Bool
  | .invalidArgument _ => true
  | _ => false

/-- True on the error kinds produced by the validation phase of
`add_metadata_entry` (everything raised before a duckdb connection is
opened): reserved-name `Exception`, `InvalidCharacterException`,
`InvalidColumnTypeException`, `InvalidArgumentException`. -/
def MetaError.isValidationError : MetaError → Bool
  | .genericError _ => true
  | .invalidCharacter _ _ => true
  | .invalidColumnType _ => true
  | .invalidArgument _ => true
  | .alreadyExists _ => false
  | .noneSubscript => false

/-- One row of the `dataset_metadata` table (its five columns; the
`value_columns` MAP column is modelled as the ordered key/value
association list it serializes). -/
structure MetaRow where
  dataset_name : String
  description : String
  value_columns : List (String × String)
  interval : String
  dataset_type : String
  deriving DecidableEq, Repr

/-- State of the metadata duckdb database plus connection accounting:
`tableExists` — whether the `dataset_metadata` table has been created;
`rows` — its rows; `opens`/`closes` — how many connections have been
acquired / released against it. -/
structure Storage where
  tableExists : Bool
  rows : List MetaRow
  opens : Nat
  closes : Nat
  deriving DecidableEq, Repr

/-- Modelled from the spec: `duckdbutils.duckdb_check_table_exists`
(not under src/): `tableExists(name) -> bool` of the storage adapter,
here whether the metadata table has been created. -/
def duckdb_check_table_exists (st : Storage) : Bool := st.tableExists

/-- Message of the bare `Exception` raised for the reserved dataset
name (metadata.py line 88). -/
def reserved_name_msg : String :=
  s!"name {METADATA_DB_NAME} is reserved, and cannot be used as a dataset name."

/-- Message of the `InvalidArgumentException` for an unrecognized
dataset type (metadata.py line 117). -/
def dataset_type_msg (dt : String) : String :=
  s!"dataset type: {dt} was not valid. Valid dataset types are: {VALID_DATASET_TYPES}"

/-- Message of the `InvalidArgumentException` for an unrecognized
interval (metadata.py line 123). -/
def interval_msg (iv : String) : String :=
  s!"interval: {iv} was not valid. Valid intervals are: {VALID_META_INTERVALS}"

/-- Per-column message collected by the type-validation loop
(metadata.py line 107). -/
def full_col_error (k err : String) : String :=
  s!"column {k} was found invalid for reason: {err}"

/-- Message of `BgsAlreadyExistsException` (metadata.py line 169). -/
def already_exists_msg (n : String) : String :=
  s!"dataset with name {n} already exists"

/-- Message of the bare `Exception` raised by `show_meta` /
`get_ds_metadata` when the metadata table does not exist. -/
def table_missing_msg : String := s!"{METADATA_TABLE_NAME} table does not exist"

/-- Message of the bare `Exception` raised by `ds_meta_exists` when the
metadata table does not exist (it additionally names the database
path, which this model does not track). -/
def table_missing_msg_db : String :=
  s!"{METADATA_TABLE_NAME} table does not exist in database"

/-- First column name (in mapping order) containing a non-alphanumeric
character: the column at which the `for col_name in
value_columns.keys()` loop of `add_metadata_entry` raises
`InvalidCharacterException`, if any. -/
def firstBadColName (cols : List (String × String)) : Option String :=
  (cols.find? (fun kv => decide (0 < (get_non_alphanum_chars kv.1).length))).map Prod.fst

/-- Python dict assignment `d[k] = v` on a dict already containing `k`:
replaces the value at the first (and, keys being distinct, only)
occurrence of `k`, keeping its position; appends if `k` is absent. -/
def dictSet (d : List (String × String)) (k v : String) : List (String × String) :=
  match d with
  | [] => [(k, v)]
  | (k0, v0) :: rest =>
    if k0 = k then (k, v) :: rest else (k0, v0) :: dictSet rest k v

/-- The type-validation loop of `add_metadata_entry` (metadata.py lines
100-108): iterates over a copy of the `value_columns` items; for each
valid type it writes the canonical spelling back into `value_columns`
(in-place mutation), for each invalid type it appends a per-column
message to `col_errors`. Returns the mutated mapping and the collected
errors. -/
def canonLoop : List (String × String) → List (String × String) → List String →
    List (String × String) × List String
  | [], vc, errs => (vc, errs)
  | (k, v) :: rest, vc, errs =>
    if (is_general_col_type v).1 then
      canonLoop rest (dictSet vc k (convert_to_cannonical_type v)) errs
    else
      canonLoop rest vc (errs ++ [full_col_error k (is_general_col_type v).2])

instance {ε α : Type} [DecidableEq ε] [DecidableEq α] : DecidableEq (Except ε α) :=
  fun a b =>
    match a, b with
    | .ok x, .ok y =>
      if h : x = y then isTrue (by rw [h]) else isFalse (by simp [h])
    | .error x, .error y =>
      if h : x = y then isTrue (by rw [h]) else isFalse (by simp [h])
    | .ok _, .error _ => isFalse (by simp)
    | .error _, .ok _ => isFalse (by simp)

/-- Result of `add_metadata_entry`: the returned value or raised error,
the storage state after the call, and the caller's `value_columns` dict
after the call (the Python code mutates it in place). -/
structure AddResult where
  result : Except MetaError String
  storage : Storage
  value_columns : List (String × String)
  deriving DecidableEq, Repr

/-- Embedding of `MetadataDB.add_metadata_entry` (metadata.py lines
53-177). Follows the source order: reserved-name check; per-column
character check (raising at the first offending column); type
canonicalization loop collecting all per-column errors; dataset_type
membership check; interval membership check; then connect, create the
table if missing, and insert — a primary-key constraint violation is
translated to `alreadyExists`, and the connection is closed by the
`try/finally` around the insert on both insert outcomes. -/
def add_metadata_entry (st : Storage) (dataset_name description : String)
    (value_columns : List (String × String)) (interval dataset_type : String) :
    AddResult :=
  if dataset_name = METADATA_DB_NAME then
    { result := .error (.genericError reserved_name_msg),
      storage := st, value_columns := value_columns }
  else match firstBadColName value_columns with
  | some col_name =>
    { result := .error (.invalidCharacter col_name (get_non_alphanum_chars col_name)),
      storage := st, value_columns := value_columns }
  | none =>
    let vc := (canonLoop value_columns value_columns []).1
    let col_errors := (canonLoop value_columns value_columns []).2
    if 0 < col_errors.length then
      { result := .error (.invalidColumnType col_errors),
        storage := st, value_columns := vc }
    else if dataset_type ∉ VALID_DATASET_TYPES then
      { result := .error (.invalidArgument (dataset_type_msg dataset_type)),
        storage := st, value_columns := vc }
    else if interval ∉ VALID_META_INTERVALS then
      { result := .error (.invalidArgument (interval_msg interval)),
        storage := st, value_columns := vc }
    else
      let st1 : Storage := { st with opens := st.opens + 1 }
      let st2 : Storage :=
        if duckdb_check_table_exists st1 then st1 else { st1 with tableExists := true }
      if st2.rows.any (fun r => r.dataset_name == dataset_name) then
        { result := .error (.alreadyExists (already_exists_msg dataset_name)),
          storage := { st2 with closes := st2.closes + 1 },
          value_columns := vc }
      else
        { result := .ok dataset_name,
          storage := { st2 with
            rows := st2.rows ++
              [{ dataset_name := dataset_name, description := description,
                 value_columns := vc, interval := interval,
                 dataset_type := dataset_type }],
            closes := st2.closes + 1 },
          value_columns := vc }

/-- Embedding of `MetadataDB.show_meta` (metadata.py lines 180-212):
connects, raises a bare `Exception` when the metadata table does not
exist, otherwise returns every row. The source never closes the
connection on any path. -/
def show_meta (st : Storage) : Except MetaError (List MetaRow) × Storage :=
  let st1 : Storage := { st with opens := st.opens + 1 }
  if !(duckdb_check_table_exists st1) then
    (.error (.genericError table_missing_msg), st1)
  else
    (.ok st1.rows, st1)

/-- Embedding of `MetadataDB.ds_meta_exists` (metadata.py lines
215-233): connects, raises a bare `Exception` when the metadata table
does not exist, otherwise returns whether `count(*)` of the rows with
the given dataset name equals 1. The source never closes the
connection on any path. -/
def ds_meta_exists (st : Storage) (dataset_name : String) :
    Except MetaError Bool × Storage :=
  let st1 : Storage := { st with opens := st.opens + 1 }
  if !(duckdb_check_table_exists st1) then
    (.error (.genericError table_missing_msg_db), st1)
  else
    (.ok (st1.rows.countP (fun r => r.dataset_name == dataset_name) == 1), st1)

/-- Embedding of `MetadataDB.get_ds_metadata` (metadata.py lines
236-276): connects, raises a bare `Exception` when the metadata table
does not exist; `fetchone()` returns the first row with the given name
or `None`, and the code subscripts that result unconditionally, so an
absent name raises the runtime `TypeError` modelled by `noneSubscript`;
on a found row it re-validates every column name and raises
`InvalidCharacterException` at the first offending one. The source
never closes the connection on any path. -/
def get_ds_metadata (st : Storage) (dataset_name : String) :
    Except MetaError MetaRow × Storage :=
  let st1 : Storage := { st with opens := st.opens + 1 }
  if !(duckdb_check_table_exists st1) then
    (.error (.genericError table_missing_msg), st1)
  else
    match st1.rows.find? (fun r => r.dataset_name == dataset_name) with
    | none => (.error .noneSubscript, st1)
    | some row =>
      match row.value_columns.find?
          (fun kv => decide (0 < (get_non_alphanum_chars kv.1).length)) with
      | some kv =>
        (.error (.invalidCharacter kv.1 (get_non_alphanum_chars kv.1)), st1)
      | none => (.ok row, st1)

/-- A fresh storage state: no table yet, no rows, no connections. -/
def initStorage : Storage :=
  { tableExists := false, rows := [], opens := 0, closes := 0 }

/-- The per-column error messages the type-validation loop collects: one
message per column (in mapping order) whose type fails
`is_general_col_type`. -/
def col_errors_of (cols : List (String × String)) : List String :=
  (cols.filter (fun kv => !(is_general_col_type kv.2).1)).map
    (fun kv => full_col_error kv.1 (is_general_col_type kv.2).2)

/-- The mapping `value_columns` holds after the type-validation loop:
every column whose type is valid has its type replaced by the canonical
spelling, every other column is untouched. -/
def canonicalized (cols : List (String × String)) : List (String × String) :=
  cols.map (fun kv =>
    if (is_general_col_type kv.2).1 then (kv.1, convert_to_cannonical_type kv.2) else kv)

/-- True when a register outcome is an `InvalidArgumentException`. -/
def resultIsInvalidArgument (r : Except MetaError String) : Bool :=
  match r with
  | .error e => e.isInvalidArgument
  | .ok _ => false

/-- A registered example row. -/
def sampleRow : MetaRow :=
  { dataset_name := "temph3", description := "d",
    value_columns := [("avgtemp", "FLOAT")], interval := "yearly",
    dataset_type := "h3" }

/-- A storage state whose metadata table exists and holds `sampleRow`. -/
def tableOnlyStorage : Storage :=
  { tableExists := true, rows := [sampleRow], opens := 0, closes := 0 }

theorem canonLoop_snd (items : List (String × String)) :
    ∀ (vc : List (String × String)) (errs : List String),
    (canonLoop items vc errs).2 = errs ++ col_errors_of items := by
  induction items with
  | nil => intro vc errs; simp [canonLoop, col_errors_of]
  | cons kv rest ih =>
    intro vc errs
    obtain ⟨k, v⟩ := kv
    by_cases h : (is_general_col_type v).1
    · simp [canonLoop, h, ih, col_errors_of]
    · simp [canonLoop, h, ih, col_errors_of]

theorem keys_canonicalized (l : List (String × String)) :
    (canonicalized l).map Prod.fst = l.map Prod.fst := by
  induction l with
  | nil => rfl
  | cons kv rest ih =>
    by_cases h : (is_general_col_type kv.2).1 <;>
      simp [canonicalized, h] at ih ⊢ <;> exact ih

theorem dictSet_append_of_not_mem (l : List (String × String))
    (rest : List (String × String)) (k v w : String)
    (h : k ∉ l.map Prod.fst) :
    dictSet (l ++ (k, v) :: rest) k w = l ++ (k, w) :: rest := by
  induction l with
  | nil => simp [dictSet]
  | cons a l ih =>
    have hne : a.1 ≠ k := by
      intro hh
      exact h (by simp [hh])
    have h2 : k ∉ l.map Prod.fst := by
      intro hh
      exact h (by simp [hh])
    simp [dictSet, hne, ih h2]

theorem canonLoop_fst_aux (items : List (String × String)) :
    ∀ (done : List (String × String)) (errs : List String),
    ((done ++ items).map Prod.fst).Nodup →
    (canonLoop items (canonicalized done ++ items) errs).1 =
      canonicalized (done ++ items) := by
  induction items with
  | nil => intro done errs _; simp [canonLoop]
  | cons kv rest ih =>
    intro done errs h
    obtain ⟨k, v⟩ := kv
    have hknotin : k ∉ (canonicalized done).map Prod.fst := by
      rw [keys_canonicalized]
      have h2 : ((done.map Prod.fst) ++ k :: (rest.map Prod.fst)).Nodup := by
        simpa using h
      have h3 := (List.nodup_cons.mp (List.nodup_middle.mp h2)).1
      intro hmem
      exact h3 (by simp [hmem])
    have hstep : ((done ++ [(k, v)]) ++ rest).map Prod.fst = ((done ++ (k, v) :: rest)).map Prod.fst := by
      simp
    by_cases hv : (is_general_col_type v).1
    · rw [canonLoop, if_pos hv,
        dictSet_append_of_not_mem (canonicalized done) rest k v
          (convert_to_cannonical_type v) hknotin]
      have hmid : canonicalized done ++ (k, convert_to_cannonical_type v) :: rest =
          canonicalized (done ++ [(k, v)]) ++ rest := by
        simp [canonicalized, hv]
      rw [hmid, ih (done ++ [(k, v)]) errs (by rw [hstep]; exact h)]
      simp
    · rw [canonLoop, if_neg hv]
      have hmid : canonicalized done ++ (k, v) :: rest =
          canonicalized (done ++ [(k, v)]) ++ rest := by
        simp [canonicalized, hv]
      rw [hmid, ih (done ++ [(k, v)]) (errs ++ [full_col_error k (is_general_col_type v).2])
        (by rw [hstep]; exact h)]
      simp

theorem canonLoop_fst (cols : List (String × String))
    (h : (cols.map Prod.fst).Nodup) :
    (canonLoop cols cols []).1 = canonicalized cols := by
  have := canonLoop_fst_aux cols [] [] (by simpa using h)
  simpa [canonicalized] using this

/-- C1, counterexample: the claim says a register call with offending
column names fails with an `InvalidCharacter` error listing every
offending column. On `value_columns` `[("a!", "float"), ("b@", "float")]`
both names are offending (the illegal characters of "b@" are "@"), yet
the raised error carries only the first column "a!" and its characters
"!" — the loop raises at the first offending column. No schema is
persisted. -/
theorem C1_counterexample :
    (add_metadata_entry initStorage "ds" "d" [("a!", "float"), ("b@", "float")]
        "yearly" "h3").result = .error (.invalidCharacter "a!" "!") ∧
    get_non_alphanum_chars "b@" = "@" ∧
    (add_metadata_entry initStorage "ds" "d" [("a!", "float"), ("b@", "float")]
        "yearly" "h3").storage = initStorage :=
  ⟨rfl, rfl, rfl⟩

/-- C1, amended: a register call (with a non-reserved dataset name)
whose `value_columns` mapping has an offending column name fails with
`InvalidCharacter` identifying the first offending column in mapping
order together with all of that column's illegal characters, and no
schema is persisted (storage is unchanged). -/
theorem C1_amended_first_offending_column (st : Storage)
    (n d iv dt c : String) (cols : List (String × String))
    (hn : n ≠ METADATA_DB_NAME) (hc : firstBadColName cols = some c) :
    (add_metadata_entry st n d cols iv dt).result =
      .error (.invalidCharacter c (get_non_alphanum_chars c)) ∧
    (add_metadata_entry st n d cols iv dt).storage = st := by
  unfold add_metadata_entry
  rw [if_neg hn, hc]
  exact ⟨rfl, rfl⟩

/-- Witness for C1 (amended) at a column named "a b". -/
theorem C1_amended_first_offending_column_witness :
    (add_metadata_entry initStorage "ds" "d" [("a b", "float")] "yearly" "h3").result =
      .error (.invalidCharacter "a b" " ") ∧
    (add_metadata_entry initStorage "ds" "d" [("a b", "float")] "yearly" "h3").storage =
      initStorage :=
  C1_amended_first_offending_column initStorage "ds" "d" "yearly" "h3" "a b"
    [("a b", "float")] (by decide) (by decide)

/-- C2, counterexample: the claim says that when both `interval` and
`dataset_type` are unrecognized the error raised is the
`InvalidArgument` for the interval; the code checks `dataset_type`
first, so with interval "bogus" and dataset type "weird" the raised
error is the dataset-type message, which differs from the interval
message. -/
theorem C2_counterexample :
    (add_metadata_entry initStorage "ds" "d" [("col1", "float")] "bogus" "weird").result =
      .error (.invalidArgument (dataset_type_msg "weird")) ∧
    dataset_type_msg "weird" ≠ interval_msg "bogus" :=
  ⟨rfl, by decide⟩

/-- C2, amended: `add_metadata_entry` validates in the order (a)
reserved name, (b) column-name characters, (c) column types, (e)
dataset_type (indexKind), (d) interval; in particular, once (a)-(c)
pass, an unrecognized dataset_type is reported regardless of the
interval, and the interval error is raised only when the dataset_type
is recognized. -/
theorem C2_amended_dataset_type_checked_before_interval (st : Storage)
    (n d iv dt : String) (cols : List (String × String))
    (hn : n ≠ METADATA_DB_NAME) (hb : firstBadColName cols = none)
    (he : (canonLoop cols cols []).2 = []) :
    (dt ∉ VALID_DATASET_TYPES →
      (add_metadata_entry st n d cols iv dt).result =
        .error (.invalidArgument (dataset_type_msg dt))) ∧
    (dt ∈ VALID_DATASET_TYPES → iv ∉ VALID_META_INTERVALS →
      (add_metadata_entry st n d cols iv dt).result =
        .error (.invalidArgument (interval_msg iv))) := by
  constructor
  · intro hdt
    simp [add_metadata_entry, hn, hb, he, hdt]
  · intro hdt hiv
    simp [add_metadata_entry, hn, hb, he, hdt, hiv]

/-- Witness for C2 (amended): both enum arguments unrecognized yields
the dataset-type error; recognized dataset type with unrecognized
interval yields the interval error. -/
theorem C2_amended_dataset_type_checked_before_interval_witness :
    (add_metadata_entry initStorage "ds" "d" [("col1", "float")] "bogus" "weird").result =
      .error (.invalidArgument (dataset_type_msg "weird")) ∧
    (add_metadata_entry initStorage "ds" "d" [("col1", "float")] "bogus" "h3").result =
      .error (.invalidArgument (interval_msg "bogus")) :=
  ⟨(C2_amended_dataset_type_checked_before_interval initStorage "ds" "d" "bogus" "weird"
      [("col1", "float")] (by decide) (by decide) (by decide)).1 (by decide),
   (C2_amended_dataset_type_checked_before_interval initStorage "ds" "d" "bogus" "h3"
      [("col1", "float")] (by decide) (by decide) (by decide)).2 (by decide) (by decide)⟩

/-- C3: when every column name is alphanumeric (and the name is not
reserved) and two or more column types fail validation, register fails
with a single `InvalidColumnType` error carrying the collected
per-column messages, and the message of every invalid column — not just
the first — is in it. -/
theorem C3_invalid_types_aggregated (st : Storage)
    (n d iv dt : String) (cols : List (String × String))
    (hn : n ≠ METADATA_DB_NAME) (hb : firstBadColName cols = none)
    (h2 : 2 ≤ (col_errors_of cols).length) :
    (add_metadata_entry st n d cols iv dt).result =
      .error (.invalidColumnType (col_errors_of cols)) ∧
    ∀ k v, (k, v) ∈ cols → (is_general_col_type v).1 = false →
      full_col_error k (is_general_col_type v).2 ∈ col_errors_of cols := by
  constructor
  · have hpos : 0 < (col_errors_of cols).length := by omega
    simp [add_metadata_entry, hn, hb, hpos, canonLoop_snd]
  · intro k v hm hinv
    exact List.mem_map_of_mem _ (List.mem_filter.mpr ⟨hm, by simp [hinv]⟩)

/-- Witness for C3 at two invalid columns c1, c3 (and one valid c2). -/
theorem C3_invalid_types_aggregated_witness :
    (add_metadata_entry initStorage "ds" "d"
        [("c1", "floop"), ("c2", "float"), ("c3", "blag")] "yearly" "h3").result =
      .error (.invalidColumnType
        (col_errors_of [("c1", "floop"), ("c2", "float"), ("c3", "blag")])) ∧
    full_col_error "c3" (is_general_col_type "blag").2 ∈
      col_errors_of [("c1", "floop"), ("c2", "float"), ("c3", "blag")] := by
  have h := C3_invalid_types_aggregated initStorage "ds" "d" "yearly" "h3"
    [("c1", "floop"), ("c2", "float"), ("c3", "blag")] (by decide) (by decide) (by decide)
  exact ⟨h.1, h.2 "c3" "blag" (by decide) (by decide)⟩

/-- C4, counterexample: the claim says registering the reserved name
fails with an `InvalidArgument`/reserved-name error kind; the code
raises a bare `Exception` (modelled `genericError`), not the
`InvalidArgumentException` kind it uses for enum validation, though
indeed before any storage access. -/
theorem C4_counterexample :
    (add_metadata_entry initStorage METADATA_DB_NAME "d" [("a", "float")]
        "yearly" "h3").result = .error (.genericError reserved_name_msg) ∧
    resultIsInvalidArgument
      (add_metadata_entry initStorage METADATA_DB_NAME "d" [("a", "float")]
        "yearly" "h3").result = false ∧
    (add_metadata_entry initStorage METADATA_DB_NAME "d" [("a", "float")]
        "yearly" "h3").storage = initStorage :=
  ⟨rfl, rfl, rfl⟩

/-- C4, amended: every register call whose dataset_name equals the
reserved internal name "dataset_metadata" fails immediately with the
reserved-name error — raised as a bare generic exception, not as the
`InvalidArgumentException` kind — and no storage connection is opened
nor any storage operation attempted (the state, including the
open-connection count, is returned unchanged). -/
theorem C4_amended_reserved_name_rejected (st : Storage) (d iv dt : String)
    (cols : List (String × String)) :
    add_metadata_entry st METADATA_DB_NAME d cols iv dt =
      { result := .error (.genericError reserved_name_msg),
        storage := st, value_columns := cols } := by
  unfold add_metadata_entry
  rw [if_pos rfl]

/-- C5: every register call that fails a validation (reserved name,
InvalidCharacter, InvalidColumnType, or InvalidArgument for
dataset_type/interval) fails before any storage connection is opened or
mutation attempted: the storage state (table, rows, connection
counters) is returned unchanged. -/
theorem C5_validation_failure_is_all_or_nothing (st : Storage)
    (n d iv dt : String) (cols : List (String × String)) (e : MetaError)
    (h : (add_metadata_entry st n d cols iv dt).result = .error e)
    (hv : e.isValidationError = true) :
    (add_metadata_entry st n d cols iv dt).storage = st := by
  by_cases h1 : n = METADATA_DB_NAME
  · simp [add_metadata_entry, h1]
  · cases hfb : firstBadColName cols with
    | some c => simp [add_metadata_entry, h1, hfb]
    | none =>
      by_cases h2 : 0 < (canonLoop cols cols []).2.length
      · simp [add_metadata_entry, h1, hfb, h2]
      · by_cases h3 : dt ∈ VALID_DATASET_TYPES
        · by_cases h4 : iv ∈ VALID_META_INTERVALS
          · exfalso
            by_cases h0 : st.tableExists
            · by_cases h5 : ∃ r ∈ st.rows, r.dataset_name = n
              · simp [add_metadata_entry, h1, hfb, h2, h3, h4, h0, h5,
                  duckdb_check_table_exists] at h
                rw [← h] at hv
                simp [MetaError.isValidationError] at hv
              · simp [add_metadata_entry, h1, hfb, h2, h3, h4, h0, h5,
                  duckdb_check_table_exists] at h
            · by_cases h5 : ∃ r ∈ st.rows, r.dataset_name = n
              · simp [add_metadata_entry, h1, hfb, h2, h3, h4, h0, h5,
                  duckdb_check_table_exists] at h
                rw [← h] at hv
                simp [MetaError.isValidationError] at hv
              · simp [add_metadata_entry, h1, hfb, h2, h3, h4, h0, h5,
                  duckdb_check_table_exists] at h
          · simp [add_metadata_entry, h1, hfb, h2, h3, h4]
        · simp [add_metadata_entry, h1, hfb, h2, h3]

/-- Witness for C5 at a reserved-name failure. -/
theorem C5_validation_failure_is_all_or_nothing_witness :
    (add_metadata_entry initStorage METADATA_DB_NAME "d" [("a", "float")]
        "yearly" "h3").storage = initStorage :=
  C5_validation_failure_is_all_or_nothing initStorage METADATA_DB_NAME "d" "yearly" "h3"
    [("a", "float")] (.genericError reserved_name_msg) (by decide) (by decide)

/-- C6: two register calls with the same valid dataset name (each
passing every validation, the name initially unregistered): the first
succeeds and returns the name, the second fails with `AlreadyExists`
(the primary-key constraint violation translated, not a raw storage
error), and the rows stored by the first call are unchanged after the
second call. -/
theorem C6_duplicate_name_translated_to_already_exists (st : Storage)
    (n d iv dt d2 iv2 dt2 : String) (cols cols2 : List (String × String))
    (hn : n ≠ METADATA_DB_NAME)
    (hb : firstBadColName cols = none) (he : (canonLoop cols cols []).2 = [])
    (hdt : dt ∈ VALID_DATASET_TYPES) (hiv : iv ∈ VALID_META_INTERVALS)
    (hb2 : firstBadColName cols2 = none) (he2 : (canonLoop cols2 cols2 []).2 = [])
    (hdt2 : dt2 ∈ VALID_DATASET_TYPES) (hiv2 : iv2 ∈ VALID_META_INTERVALS)
    (hfresh : ¬ ∃ r ∈ st.rows, r.dataset_name = n) :
    (add_metadata_entry st n d cols iv dt).result = .ok n ∧
    (add_metadata_entry (add_metadata_entry st n d cols iv dt).storage
        n d2 cols2 iv2 dt2).result =
      .error (.alreadyExists (already_exists_msg n)) ∧
    (add_metadata_entry (add_metadata_entry st n d cols iv dt).storage
        n d2 cols2 iv2 dt2).storage.rows =
      (add_metadata_entry st n d cols iv dt).storage.rows := by
  by_cases h0 : st.tableExists <;>
    simp [add_metadata_entry, hn, hb, he, hdt, hiv, hb2, he2, hdt2, hiv2,
      hfresh, h0, duckdb_check_table_exists]

/-- Witness for C6: registering "ds" twice into a fresh catalog. -/
theorem C6_duplicate_name_translated_to_already_exists_witness :
    (add_metadata_entry initStorage "ds" "d" [("a", "float")] "yearly" "h3").result =
      .ok "ds" ∧
    (add_metadata_entry
        (add_metadata_entry initStorage "ds" "d" [("a", "float")] "yearly" "h3").storage
        "ds" "d2" [("a", "float")] "yearly" "h3").result =
      .error (.alreadyExists (already_exists_msg "ds")) ∧
    (add_metadata_entry
        (add_metadata_entry initStorage "ds" "d" [("a", "float")] "yearly" "h3").storage
        "ds" "d2" [("a", "float")] "yearly" "h3").storage.rows =
      (add_metadata_entry initStorage "ds" "d" [("a", "float")] "yearly" "h3").storage.rows :=
  C6_duplicate_name_translated_to_already_exists initStorage "ds" "d" "yearly" "h3"
    "d2" "yearly" "h3" [("a", "float")] [("a", "float")]
    (by decide) (by decide) (by decide) (by decide) (by decide)
    (by decide) (by decide) (by decide) (by decide) (by decide)

/-- C7: the claim (and spec) says `get` fails with `NotFound` for an
unregistered name when the metadata table exists; the code instead
subscripts the `None` returned by `fetchone()`, raising a raw runtime
`TypeError` — no NotFound-kind exception is raised anywhere in
`get_ds_metadata`. Here "missing" is unregistered in a storage whose
table exists and holds one other row, and the call produces the
`noneSubscript` (TypeError) outcome. -/
theorem C7_get_unregistered_raises_none_subscript :
    tableOnlyStorage.tableExists = true ∧
    tableOnlyStorage.rows.all (fun r => !(r.dataset_name == "missing")) = true ∧
    (get_ds_metadata tableOnlyStorage "missing").1 = .error .noneSubscript :=
  ⟨rfl, rfl, rfl⟩

/-- C8, counterexample: the claim says every catalog operation releases
its storage connection on every exit path; `show_meta` succeeds here
after opening a connection (opens goes from 0 to 1) yet never closes it
(closes stays 0). -/
theorem C8_counterexample :
    (show_meta tableOnlyStorage).1 = .ok [sampleRow] ∧
    (show_meta tableOnlyStorage).2.opens = tableOnlyStorage.opens + 1 ∧
    (show_meta tableOnlyStorage).2.closes = tableOnlyStorage.closes :=
  ⟨rfl, rfl, rfl⟩

/-- C8, amended: only register (`add_metadata_entry`) releases the
connection it acquires — whenever it has opened one, it has also closed
one, via the try/finally around the insert; `show_meta`,
`ds_meta_exists` and `get_ds_metadata` each open a connection and never
close it, on any exit path (success or error). -/
theorem C8_amended_only_register_releases_connection (st : Storage)
    (n d iv dt : String) (cols : List (String × String)) :
    ((add_metadata_entry st n d cols iv dt).storage.opens = st.opens + 1 →
      (add_metadata_entry st n d cols iv dt).storage.closes = st.closes + 1) ∧
    ((show_meta st).2.opens = st.opens + 1 ∧ (show_meta st).2.closes = st.closes) ∧
    ((ds_meta_exists st n).2.opens = st.opens + 1 ∧
      (ds_meta_exists st n).2.closes = st.closes) ∧
    ((get_ds_metadata st n).2.opens = st.opens + 1 ∧
      (get_ds_metadata st n).2.closes = st.closes) := by
  refine ⟨?_, ?_, ?_, ?_⟩
  · intro hopen
    by_cases h1 : n = METADATA_DB_NAME
    · simp [add_metadata_entry, h1] at hopen
    · cases hfb : firstBadColName cols with
      | some c =>
        simp [add_metadata_entry, h1, hfb] at hopen
      | none =>
        by_cases h2 : 0 < (canonLoop cols cols []).2.length
        · simp [add_metadata_entry, h1, hfb, h2] at hopen
        · by_cases h3 : dt ∈ VALID_DATASET_TYPES
          · by_cases h4 : iv ∈ VALID_META_INTERVALS
            · by_cases h0 : st.tableExists <;>
                by_cases h5 : ∃ r ∈ st.rows, r.dataset_name = n <;>
                simp [add_metadata_entry, h1, hfb, h2, h3, h4, h0, h5,
                  duckdb_check_table_exists]
            · simp [add_metadata_entry, h1, hfb, h2, h3, h4] at hopen
          · simp [add_metadata_entry, h1, hfb, h2, h3] at hopen
  · by_cases h0 : st.tableExists <;>
      simp [show_meta, duckdb_check_table_exists, h0]
  · by_cases h0 : st.tableExists <;>
      simp [ds_meta_exists, duckdb_check_table_exists, h0]
  · by_cases h0 : st.tableExists
    · cases hf : st.rows.find? (fun r => r.dataset_name == n) with
      | none => simp [get_ds_metadata, duckdb_check_table_exists, h0, hf]
      | some row =>
        cases hbad : row.value_columns.find?
            (fun kv => decide (0 < (get_non_alphanum_chars kv.1).length)) with
        | none => simp [get_ds_metadata, duckdb_check_table_exists, h0, hf, hbad]
        | some kv => simp [get_ds_metadata, duckdb_check_table_exists, h0, hf, hbad]
    · simp [get_ds_metadata, duckdb_check_table_exists, h0]

/-- Witness for C8 (amended): a successful registration into a fresh
catalog opens one connection and closes it. -/
theorem C8_amended_only_register_releases_connection_witness :
    (add_metadata_entry initStorage "ds" "d" [("a", "float")] "yearly" "h3").storage.closes =
      initStorage.closes + 1 :=
  (C8_amended_only_register_releases_connection initStorage "ds" "d" "yearly" "h3"
    [("a", "float")]).1 (by decide)

/-- C9: register mutates the caller's `value_columns` mapping in place,
replacing each type that passes validation with its canonical spelling,
and this partial canonicalization is observable even when the call then
fails with `InvalidColumnType` because some other column's type is
invalid: under alphanumeric column names with distinct keys and at
least one invalid type, the call fails with the aggregated error while
the returned mapping is the partially canonicalized one. -/
theorem C9_value_columns_mutated_in_place (st : Storage)
    (n d iv dt : String) (cols : List (String × String))
    (hn : n ≠ METADATA_DB_NAME) (hb : firstBadColName cols = none)
    (hk : (cols.map Prod.fst).Nodup) (hbad : col_errors_of cols ≠ []) :
    (add_metadata_entry st n d cols iv dt).result =
      .error (.invalidColumnType (col_errors_of cols)) ∧
    (add_metadata_entry st n d cols iv dt).value_columns = canonicalized cols := by
  have hpos : 0 < (col_errors_of cols).length := List.length_pos.mpr hbad
  constructor
  · simp [add_metadata_entry, hn, hb, hpos, canonLoop_snd]
  · simp [add_metadata_entry, hn, hb, hpos, canonLoop_snd, canonLoop_fst cols hk]

/-- Witness for C9: with one invalid column c1 and one valid column c2,
the call fails with `InvalidColumnType` yet the returned mapping has
c2's type already canonicalized ("float" became "FLOAT") while c1 is
untouched. -/
theorem C9_value_columns_mutated_in_place_witness :
    (add_metadata_entry initStorage "ds" "d" [("c1", "floop"), ("c2", "float")]
        "yearly" "h3").result =
      .error (.invalidColumnType (col_errors_of [("c1", "floop"), ("c2", "float")])) ∧
    (add_metadata_entry initStorage "ds" "d" [("c1", "floop"), ("c2", "float")]
        "yearly" "h3").value_columns = [("c1", "floop"), ("c2", "FLOAT")] := by
  have h := C9_value_columns_mutated_in_place initStorage "ds" "d" "yearly" "h3"
    [("c1", "floop"), ("c2", "float")] (by decide) (by decide) (by decide) (by decide)
  exact ⟨h.1, h.2.trans (by decide)⟩

/-- C10: `ds_meta_exists` raises (a bare exception, not a false return)
whenever the metadata table has never been created; when the table
exists it returns true exactly when one row of the table has the given
dataset name (the code compares `count(*)` with 1). -/
theorem C10_exists_raises_without_table_else_counts (st : Storage) (n : String) :
    (st.tableExists = false →
      (ds_meta_exists st n).1 = .error (.genericError table_missing_msg_db)) ∧
    (st.tableExists = true →
      ((ds_meta_exists st n).1 = .ok true ↔
        (st.rows.filter (fun r => r.dataset_name == n)).length = 1)) := by
  constructor
  · intro h
    simp [ds_meta_exists, duckdb_check_table_exists, h]
  · intro h
    simp [ds_meta_exists, duckdb_check_table_exists, h, List.countP_eq_length_filter]

/-- Witness for C10: a fresh catalog (no table) raises; a catalog whose
table holds exactly the row named "temph3" answers true for it. -/
theorem C10_exists_raises_without_table_else_counts_witness :
    (ds_meta_exists initStorage "x").1 = .error (.genericError table_missing_msg_db) ∧
    (ds_meta_exists tableOnlyStorage "temph3").1 = .ok true :=
  ⟨(C10_exists_raises_without_table_else_counts initStorage "x").1 (by decide),
   (C10_exists_raises_without_table_else_counts tableOnlyStorage "temph3").2
     (by decide) |>.mpr (by decide)⟩

end GeoMeta
